import Mathlib

/-!
Shallow embedding of the bunq Python SDK authentication-context lifecycle
(`bunq/sdk/context/api_context.py`) and response-envelope unwrapping
(`bunq/sdk/model/model.py`).

Timestamps and durations are modelled as integers counting seconds, matching
the `datetime` arithmetic of the source where only comparisons and addition of
second-granularity timeouts occur. Remote HTTP interactions are modelled as
oracle parameters: the outcome of a network call is passed in as an
`Except BunqError` value, and each stateful operation additionally returns the
list of remote endpoints it invoked, so that frame claims about which
operation performs which remote call can be stated.
-/

/-- Errors of the embedded code. `bunqException` is Python's `BunqException`
(the spec's `ConfigurationError` for an unresolvable user kind); `keyError`
is Python's `KeyError` from a failed dict lookup (the spec's `ProtocolError`
for a malformed envelope); `indexError` is Python's `IndexError`;
`typeError` covers indexing a non-container; `apiError` is a failed remote
call surfaced by the transport. -/
inductive BunqError where
  | bunqException : BunqError
  | keyError (key : String) : BunqError
  | indexError : BunqError
  | typeError : BunqError
  | apiError : BunqError
deriving DecidableEq, Repr

/-- Remote endpoints a context operation can invoke, for effect-trace claims. -/
inductive RemoteCall where
  | sessionServerCreate : RemoteCall
  | sessionDelete (id : Int) : RemoteCall
deriving DecidableEq, Repr

/-- JSON values, as produced by `converter.json_to_class(dict, json)` on a
response body. Objects keep their fields as an ordered association list. -/
inductive Json where
  | null : Json
  | num (n : Int) : Json
  | str (s : String) : Json
  | arr (xs : List Json) : Json
  | obj (fields : List (String × Json)) : Json

/-- Python `obj[key]` on a parsed JSON object: returns the value mapped by
`key` or fails with `KeyError`; indexing a non-object with a string key is a
type error. -/
def Json.getKey (j : Json) (key : String) : Except BunqError Json :=
  match j with
  | .obj fields =>
      match fields.lookup key with
      | some v => .ok v
      | none => .error (.keyError key)
  | _ => .error .typeError

/-- Python `xs[i]` on a parsed JSON array: returns the element at `i` or
fails with `IndexError`; indexing a non-array is a type error. -/
def Json.getIndex (j : Json) (i : Nat) : Except BunqError Json :=
  match j with
  | .arr xs =>
      match xs.get? i with
      | some v => .ok v
      | none => .error .indexError
  | _ => .error .typeError

/-- `bunq.sdk.model.model.SessionToken`: wraps the session token string. -/
structure SessionToken where
  token : String
deriving DecidableEq, Repr

/-- User returned for a person account, as accessed by
`ApiContext._get_session_timeout_seconds`. -/
structure UserPerson where
  id_ : Int
  session_timeout : Int
deriving DecidableEq, Repr

/-- User returned for a company account, as accessed by
`ApiContext._get_session_timeout_seconds`. -/
structure UserCompany where
  id_ : Int
  session_timeout : Int
deriving DecidableEq, Repr

/-- Modelled from the spec: the user object referenced by an api-key
delegate, reached "one level further" through the delegate; it carries the
session timeout and the user identity. The concrete class lives outside the
provided sources (`bunq.sdk.model.generated`). -/
structure UserRead where
  id_ : Int
  session_timeout : Int
deriving DecidableEq, Repr

/-- Modelled from the spec: the anchored `requested_by_user` object of an
api-key delegate, whose `get_referenced_object()` yields the referenced user.
The concrete class lives outside the provided sources. -/
structure AnchoredUser where
  get_referenced_object : UserRead
deriving DecidableEq, Repr

/-- User returned for an api-key delegate, as accessed by
`ApiContext._get_session_timeout_seconds` via
`user_api_key.requested_by_user.get_referenced_object().session_timeout`. -/
structure UserApiKey where
  id_ : Int
  requested_by_user : AnchoredUser
deriving DecidableEq, Repr

/-- `SessionServer` response of the session-open endpoint. `model.py` holds
an id, a token and the `user_person` / `user_company` branches; the
`user_api_key` branch is added as accessed by
`ApiContext._get_session_timeout_seconds` (its defining module
`bunq/sdk/model/core/session_server.py` is not among the provided sources). -/
structure SessionServer where
  id_ : Option Int
  token : SessionToken
  user_person : Option UserPerson
  user_company : Option UserCompany
  user_api_key : Option UserApiKey
deriving DecidableEq, Repr

/-- Modelled from the spec: `SessionServer.get_referenced_user`, defined in
`bunq/sdk/model/core/session_server.py` which is not among the provided
sources. The spec states the session's user id is "resolved from whichever
of (company, person, api-key-delegate) user kind the server returned"; the
branch order mirrors `ApiContext._get_session_timeout_seconds`, and an
unresolvable user kind is the same hard failure. -/
def SessionServer.get_referenced_user (ss : SessionServer) : Except BunqError Int :=
  match ss.user_company with
  | some uc => .ok uc.id_
  | none =>
      match ss.user_person with
      | some up => .ok up.id_
      | none =>
          match ss.user_api_key with
          | some uak => .ok uak.requested_by_user.get_referenced_object.id_
          | none => .error .bunqException

/-- `bunq.sdk.context.installation_context.InstallationContext`: installation
token plus key material (keys kept as opaque PEM strings). -/
structure InstallationContext where
  token : String
  client_private_key : String
  server_public_key : String
deriving DecidableEq, Repr

/-- `bunq.sdk.context.session_context.SessionContext`: session token,
absolute expiry timestamp and resolved user id. -/
structure SessionContext where
  token : String
  expiry_time : Int
  user_id : Int
deriving DecidableEq, Repr

/-- `bunq.sdk.context.api_environment_type.ApiEnvironmentType`. -/
inductive ApiEnvironmentType where
  | PRODUCTION : ApiEnvironmentType
  | SANDBOX : ApiEnvironmentType
deriving DecidableEq, Repr

/-- `bunq.sdk.context.api_context.ApiContext`: the authentication context.
`installation_context` and `session_context` are `none` before the
corresponding phase has run (both are initialized to `None` in `__init__`). -/
structure ApiContext where
  environment_type : ApiEnvironmentType
  api_key : String
  installation_context : Option InstallationContext
  session_context : Option SessionContext
  proxy_url : Option String
deriving DecidableEq, Repr

/-- `ApiContext._TIME_TO_SESSION_EXPIRY_MINIMUM_SECONDS`: minimum time to
session expiry not requiring session reset. -/
def ApiContext.sessionExpiryMinimumSeconds : Int := 30

/-- `ApiContext._SESSION_ID_DUMMY`: dummy id passed to the session-delete
endpoint. -/
def ApiContext.sessionIdDummy : Int := 0

/-- `ApiContext.is_session_active`: `False` when no session context exists;
otherwise compares the remaining time to expiry against the 30-second
minimum, returning `True` exactly when `expiry_time - now` strictly exceeds
it. -/
def ApiContext.is_session_active (ctx : ApiContext) (now : Int) : Bool :=
  match ctx.session_context with
  | none => false
  | some sc => decide (sc.expiry_time - now > ApiContext.sessionExpiryMinimumSeconds)

/-- `ApiContext._get_session_timeout_seconds`: reads the session timeout from
the company user, else the person user, else the api-key delegate's
referenced user object, and raises `BunqException` when all three are
absent. -/
def ApiContext.get_session_timeout_seconds (ss : SessionServer) : Except BunqError Int :=
  match ss.user_company with
  | some uc => .ok uc.session_timeout
  | none =>
      match ss.user_person with
      | some up => .ok up.session_timeout
      | none =>
          match ss.user_api_key with
          | some uak => .ok uak.requested_by_user.get_referenced_object.session_timeout
          | none => .error .bunqException

/-- `ApiContext._get_expiry_timestamp`: local time of creation plus the
server-declared timeout. -/
def ApiContext.get_expiry_timestamp (ss : SessionServer) (now : Int) : Except BunqError Int :=
  match ApiContext.get_session_timeout_seconds ss with
  | .ok timeout_seconds => .ok (now + timeout_seconds)
  | .error e => .error e

/-- `ApiContext._initialize_session`: calls the session-server create
endpoint (outcome supplied by the oracle `resp`), computes the expiry
timestamp and the referenced user, and only then installs the new
`SessionContext`; any failure leaves the state unchanged and propagates. -/
def ApiContext.initialize_session (ctx : ApiContext)
    (resp : Except BunqError SessionServer) (now : Int) :
    ApiContext × Except BunqError Unit × List RemoteCall :=
  match resp with
  | .error e => (ctx, .error e, [.sessionServerCreate])
  | .ok ss =>
      match ApiContext.get_expiry_timestamp ss now with
      | .error e => (ctx, .error e, [.sessionServerCreate])
      | .ok expiry_time =>
          match ss.get_referenced_user with
          | .error e => (ctx, .error e, [.sessionServerCreate])
          | .ok user_id =>
              ({ ctx with session_context := some ⟨ss.token.token, expiry_time, user_id⟩ },
               .ok (), [.sessionServerCreate])

/-- `ApiContext._drop_session_context`: sets the session context to `None`. -/
def ApiContext.drop_session_context (ctx : ApiContext) : ApiContext :=
  { ctx with session_context := none }

/-- `ApiContext.reset_session`: drops the session context, then initializes a
new session. -/
def ApiContext.reset_session (ctx : ApiContext)
    (resp : Except BunqError SessionServer) (now : Int) :
    ApiContext × Except BunqError Unit × List RemoteCall :=
  (ctx.drop_session_context).initialize_session resp now

/-- `ApiContext.ensure_session_active`: when the session is active, does
nothing and returns `False`; otherwise resets the session and returns `True`
(a reset failure propagates). -/
def ApiContext.ensure_session_active (ctx : ApiContext)
    (resp : Except BunqError SessionServer) (now : Int) :
    ApiContext × Except BunqError Bool × List RemoteCall :=
  if ctx.is_session_active now then
    (ctx, .ok false, [])
  else
    match ctx.reset_session resp now with
    | (ctx2, .ok _, calls) => (ctx2, .ok true, calls)
    | (ctx2, .error e, calls) => (ctx2, .error e, calls)

/-- `ApiContext._delete_session`: invokes `endpoint.Session.delete` with the
dummy session id; the call's outcome is supplied by the oracle. -/
def ApiContext.delete_session (deleteResult : Except BunqError Unit) :
    Except BunqError Unit × List RemoteCall :=
  (deleteResult, [.sessionDelete ApiContext.sessionIdDummy])

/-- `ApiContext.close_session`: deletes the remote session, then drops the
local session context. There is no exception handler in the source: a failing
delete propagates before `_drop_session_context` runs, leaving the local
state unchanged. -/
def ApiContext.close_session (ctx : ApiContext)
    (deleteResult : Except BunqError Unit) :
    ApiContext × Except BunqError Unit × List RemoteCall :=
  match ApiContext.delete_session deleteResult with
  | (.ok _, calls) => (ctx.drop_session_context, .ok (), calls)
  | (.error e, calls) => (ctx, .error e, calls)

/-- `ApiContext.token` property: the session token when a session context
exists, else the installation token when an installation context exists,
else `None`. -/
def ApiContext.token (ctx : ApiContext) : Option String :=
  match ctx.session_context with
  | some sc => some sc.token
  | none =>
      match ctx.installation_context with
      | some ic => some ic.token
      | none => none

/-- `ApiContext.__eq__`: compares the `token` accessor values, the api keys
and the environment types. -/
def ApiContext.eq (a b : ApiContext) : Bool :=
  decide (a.token = b.token) && decide (a.api_key = b.api_key)
    && decide (a.environment_type = b.environment_type)

/-- `BunqModel._FIELD_RESPONSE`. -/
def BunqModel.fieldResponse : String := "Response"

/-- `BunqModel._FIELD_ID`. -/
def BunqModel.fieldId : String := "Id"

/-- `BunqModel._INDEX_FIRST`. -/
def BunqModel.indexFirst : Nat := 0

/-- `BunqModel._unwrap_response_single`: `obj["Response"][0]`, or
`obj["Response"][0][wrapper]` when a wrapper key is given. -/
def BunqModel.unwrap_response_single (obj : Json) (wrapper : Option String) :
    Except BunqError Json :=
  match obj.getKey BunqModel.fieldResponse with
  | .error e => .error e
  | .ok response =>
      match response.getIndex BunqModel.indexFirst with
      | .error e => .error e
      | .ok first =>
          match wrapper with
          | none => .ok first
          | some w => first.getKey w

/-- `bunq.sdk.model.model.Id`: deserialization target holding an optional
integer id (initialized to `None`). -/
structure BunqModel.Id where
  id_ : Option Int
deriving DecidableEq, Repr

/-- Modelled from the spec: `converter.deserialize(Id, value)`; the JSON
field-mapping converter (`bunq/sdk/json`) is an external collaborator not
among the provided sources. Deserializing an object reads its `id` field
into `id_`, leaving `id_` as `None` when the field is absent. -/
def BunqModel.Id.deserialize (j : Json) : Except BunqError BunqModel.Id :=
  match j with
  | .obj fields =>
      match fields.lookup "id" with
      | some (.num n) => .ok { id_ := some n }
      | some _ => .error .typeError
      | none => .ok { id_ := none }
  | _ => .error .typeError

/-- `BunqModel._process_for_id`: unwraps the single response element under
the wrapper key `"Id"`, deserializes an `Id` from it and yields its `id_`
value. -/
def BunqModel.process_for_id (obj : Json) : Except BunqError (Option Int) :=
  match BunqModel.unwrap_response_single obj (some BunqModel.fieldId) with
  | .error e => .error e
  | .ok unwrapped =>
      match BunqModel.Id.deserialize unwrapped with
      | .error e => .error e
      | .ok i => .ok i.id_

/-- Loop body of `BunqModel._from_json_list`: walks the `"Response"` array in
order, unwrapping each element through the optional wrapper key and stopping
at the first failure. -/
def BunqModel.from_json_list_loop (wrapper : Option String) :
    List Json → Except BunqError (List Json)
  | [] => .ok []
  | item :: rest =>
      match ((match wrapper with | none => .ok item | some w => item.getKey w) :
          Except BunqError Json) with
      | .error e => .error e
      | .ok item_unwrapped =>
          match BunqModel.from_json_list_loop wrapper rest with
          | .error e => .error e
          | .ok rest_unwrapped => .ok (item_unwrapped :: rest_unwrapped)

/-- `BunqModel._from_json_list`: reads `obj["Response"]` and maps every
element of the array, applying the optional wrapper-key indexing to each. -/
def BunqModel.from_json_list (obj : Json) (wrapper : Option String) :
    Except BunqError (List Json) :=
  match obj.getKey BunqModel.fieldResponse with
  | .error e => .error e
  | .ok (.arr array) => BunqModel.from_json_list_loop wrapper array
  | .ok _ => .error .typeError

/-- Element transform that the spec ascribes to `unwrapList`: identity
without a wrapper key, one further key lookup with one. Stated from the
spec's words, to compare `from_json_list` against. -/
def unwrapItemSpec (wrapper : Option String) (item : Json) : Except BunqError Json :=
  match wrapper with
  | none => .ok item
  | some w => item.getKey w

/-! ### Concrete fixtures used by witnesses and counterexamples -/

/-- Context holding a session that expires at time 100, for the liveness
boundary claims. -/
def c1_ctx : ApiContext :=
  { environment_type := .SANDBOX, api_key := "api-key", installation_context := none,
    session_context := some ⟨"session-token", 100, 1⟩, proxy_url := none }

/-- Context with no session open, for the renewal and absent-session
claims. -/
def c2_ctx : ApiContext :=
  { environment_type := .PRODUCTION, api_key := "api-key-2",
    installation_context := some ⟨"installation-token", "client-private-pem", "server-public-pem"⟩,
    session_context := none, proxy_url := none }

/-- Session-server response granting a 10-second timeout to a company
user. -/
def c2_session_server : SessionServer :=
  { id_ := some 1, token := ⟨"renewed-token"⟩, user_person := none,
    user_company := some ⟨7, 10⟩, user_api_key := none }

/-- Session-server response granting a 3600-second timeout to a company
user. -/
def c2w_session_server : SessionServer :=
  { id_ := some 2, token := ⟨"renewed-token-2"⟩, user_person := none,
    user_company := some ⟨8, 3600⟩, user_api_key := none }

/-- Context holding a live session, for the teardown claims. -/
def c3_ctx : ApiContext :=
  { environment_type := .SANDBOX, api_key := "api-key-3",
    installation_context := some ⟨"installation-token-3", "client-private-pem", "server-public-pem"⟩,
    session_context := some ⟨"session-token-3", 1000, 7⟩, proxy_url := none }

/-- Envelope holding a single Id shortcut object with id 42. -/
def c6_obj : Json :=
  .obj [("Response", .arr [.obj [("Id", .obj [("id", .num 42)])]])]

/-- Envelope holding two elements nested under the wrapper key "X". -/
def c7_obj : Json :=
  .obj [("Response", .arr [.obj [("X", .obj [("a", .num 1)])],
                           .obj [("X", .obj [("a", .num 2)])]])]

/-! ### Helper lemmas -/

/-- Every branch of `initialize_session` preserves the environment, the api
key, the installation context and the proxy url, and invokes exactly the
session-server create endpoint. -/
theorem ApiContext.initialize_session_shape (ctx : ApiContext)
    (resp : Except BunqError SessionServer) (now : Int) :
    ((ctx.initialize_session resp now).1).environment_type = ctx.environment_type
    ∧ ((ctx.initialize_session resp now).1).api_key = ctx.api_key
    ∧ ((ctx.initialize_session resp now).1).installation_context = ctx.installation_context
    ∧ ((ctx.initialize_session resp now).1).proxy_url = ctx.proxy_url
    ∧ (ctx.initialize_session resp now).2.2 = [RemoteCall.sessionServerCreate] := by
  unfold ApiContext.initialize_session
  rcases resp with e | ss
  · exact ⟨rfl, rfl, rfl, rfl, rfl⟩
  · cases hexp : ApiContext.get_expiry_timestamp ss now with
    | error e => simp [hexp]
    | ok t =>
        cases huser : ss.get_referenced_user with
        | error e => simp [hexp, huser]
        | ok uid => simp [hexp, huser]

/-- When the session timeout is resolvable, so is the referenced user. -/
theorem SessionServer.get_referenced_user_ok (ss : SessionServer) (t : Int)
    (ht : ApiContext.get_session_timeout_seconds ss = .ok t) :
    ∃ uid, ss.get_referenced_user = Except.ok uid := by
  unfold ApiContext.get_session_timeout_seconds at ht
  unfold SessionServer.get_referenced_user
  cases hc : ss.user_company with
  | some uc => exact ⟨uc.id_, by simp [hc]⟩
  | none =>
      cases hp : ss.user_person with
      | some up => exact ⟨up.id_, by simp [hc, hp]⟩
      | none =>
          cases ha : ss.user_api_key with
          | some uak => exact ⟨uak.requested_by_user.get_referenced_object.id_, by simp [hc, hp, ha]⟩
          | none => rw [hc, hp, ha] at ht; exact absurd ht (by simp)

/-! ### Claim theorems -/

/-- C1: for every context holding a session with expiry time `E`,
`is_session_active` returns `false` exactly when `now ≥ E - 30` seconds and
`true` otherwise, and the 30-second minimum-validity window is the constant
`_TIME_TO_SESSION_EXPIRY_MINIMUM_SECONDS`. -/
theorem is_session_active_iff_expiry (ctx : ApiContext) (sc : SessionContext) (now : Int)
    (h : ctx.session_context = some sc) :
    (ctx.is_session_active now = false ↔
      sc.expiry_time - ApiContext.sessionExpiryMinimumSeconds ≤ now)
    ∧ ApiContext.sessionExpiryMinimumSeconds = 30 := by
  refine ⟨?_, rfl⟩
  simp only [ApiContext.is_session_active, h, ApiContext.sessionExpiryMinimumSeconds,
    decide_eq_false_iff_not, not_lt]
  omega

/-- Witness for C1 at a concrete context and time on the boundary. -/
theorem is_session_active_iff_expiry_witness :
    c1_ctx.session_context = some ⟨"session-token", 100, 1⟩
    ∧ ((c1_ctx.is_session_active 70 = false ↔
          (100 : Int) - ApiContext.sessionExpiryMinimumSeconds ≤ 70)
       ∧ ApiContext.sessionExpiryMinimumSeconds = 30) :=
  ⟨rfl, is_session_active_iff_expiry c1_ctx ⟨"session-token", 100, 1⟩ 70 rfl⟩

/-- C10: for every context whose session context is absent,
`is_session_active` returns `false` at every time, without consulting the
clock. -/
theorem is_session_active_absent_false (ctx : ApiContext) (now : Int)
    (h : ctx.session_context = none) :
    ctx.is_session_active now = false := by
  simp [ApiContext.is_session_active, h]

/-- Witness for C10 at a concrete session-less context. -/
theorem is_session_active_absent_false_witness :
    c2_ctx.session_context = none ∧ c2_ctx.is_session_active 5 = false :=
  ⟨rfl, is_session_active_absent_false c2_ctx 5 rfl⟩

/-- C9: two contexts are equal exactly when the `token` accessor values, the
api keys and the environment types all match; changing only the session
expiry keeps two contexts equal, and differing tokens make two otherwise
identical contexts unequal. -/
theorem api_context_eq_iff (a b : ApiContext) (tok : String) (uid e e2 : Int) :
    (ApiContext.eq a b = true ↔
      (a.token = b.token ∧ a.api_key = b.api_key ∧ a.environment_type = b.environment_type))
    ∧ ApiContext.eq { a with session_context := some ⟨tok, e, uid⟩ }
        { a with session_context := some ⟨tok, e2, uid⟩ } = true
    ∧ ApiContext.eq { a with session_context := some ⟨"token-one", e, uid⟩ }
        { a with session_context := some ⟨"token-two", e2, uid⟩ } = false := by
  refine ⟨?_, ?_, ?_⟩
  · simp [ApiContext.eq, and_assoc]
  · simp [ApiContext.eq, ApiContext.token]
  · simp [ApiContext.eq, ApiContext.token]

/-- C5: the session timeout is resolved from the company user when present,
else the person user, else the api-key delegate's referenced user object;
when all three are absent the resolution, and with it session open, fails
with the `BunqException` the spec calls `ConfigurationError`. -/
theorem get_session_timeout_seconds_cases (ctx : ApiContext) (now : Int) (i : Option Int)
    (tok : SessionToken) (uc : UserCompany) (up : UserPerson) (uak : UserApiKey)
    (upo : Option UserPerson) (uako : Option UserApiKey) :
    ApiContext.get_session_timeout_seconds ⟨i, tok, upo, some uc, uako⟩ = .ok uc.session_timeout
    ∧ ApiContext.get_session_timeout_seconds ⟨i, tok, some up, none, uako⟩
        = .ok up.session_timeout
    ∧ ApiContext.get_session_timeout_seconds ⟨i, tok, none, none, some uak⟩
        = .ok uak.requested_by_user.get_referenced_object.session_timeout
    ∧ ApiContext.get_session_timeout_seconds ⟨i, tok, none, none, none⟩
        = .error .bunqException
    ∧ ctx.initialize_session (.ok ⟨i, tok, none, none, none⟩) now
        = (ctx, .error .bunqException, [.sessionServerCreate]) :=
  ⟨rfl, rfl, rfl, rfl, rfl⟩

/-- C4: `reset_session` invokes only the session-server create endpoint —
never the session-delete endpoint — leaves environment, api key,
installation context and proxy unchanged, and is exactly drop-then-reopen;
the remote delete is performed by `close_session`. -/
theorem reset_session_frame_no_delete (ctx : ApiContext)
    (resp : Except BunqError SessionServer) (now : Int) (r : Except BunqError Unit) :
    (ctx.reset_session resp now).2.2 = [RemoteCall.sessionServerCreate]
    ∧ ((ctx.reset_session resp now).1).environment_type = ctx.environment_type
    ∧ ((ctx.reset_session resp now).1).api_key = ctx.api_key
    ∧ ((ctx.reset_session resp now).1).installation_context = ctx.installation_context
    ∧ ((ctx.reset_session resp now).1).proxy_url = ctx.proxy_url
    ∧ ctx.reset_session resp now = (ctx.drop_session_context).initialize_session resp now
    ∧ (ctx.close_session r).2.2 = [RemoteCall.sessionDelete ApiContext.sessionIdDummy] := by
  obtain ⟨h1, h2, h3, h4, h5⟩ :=
    ApiContext.initialize_session_shape ctx.drop_session_context resp now
  refine ⟨h5, h1, h2, h3, h4, rfl, ?_⟩
  rcases r with e | u
  · rfl
  · rfl

/-- C3 counterexample: on a context holding a session, a failing remote
delete leaves the session context in place — it does not become absent — and
the failure propagates instead of teardown completing. -/
theorem close_session_claim_counterexample :
    ((c3_ctx.close_session (.error .apiError)).1).session_context
        = some ⟨"session-token-3", 1000, 7⟩
    ∧ ((c3_ctx.close_session (.error .apiError)).1).session_context ≠ none
    ∧ (c3_ctx.close_session (.error .apiError)).2.1 = .error .apiError := by
  refine ⟨rfl, ?_, rfl⟩
  simp [c3_ctx, ApiContext.close_session, ApiContext.delete_session]

/-- C3 amended: `close_session` clears the local session state only when the
remote delete succeeds; a failing delete propagates its error and leaves the
context, its session state included, unchanged. -/
theorem close_session_delete_failure_propagates (ctx : ApiContext) (e : BunqError) :
    ctx.close_session (.error e)
        = (ctx, .error e, [RemoteCall.sessionDelete ApiContext.sessionIdDummy])
    ∧ ctx.close_session (.ok ())
        = (ctx.drop_session_context, .ok (), [RemoteCall.sessionDelete ApiContext.sessionIdDummy])
    ∧ (ctx.drop_session_context).session_context = none :=
  ⟨rfl, rfl, rfl⟩

/-- C2 counterexample: starting with no active session and a successful
session open granting a 10-second timeout, `ensure_session_active` performs
the reset and returns true, yet `is_session_active` is still false
afterwards, because the new expiry is within the 30-second minimum-validity
window. -/
theorem ensure_session_active_claim_counterexample :
    (c2_ctx.ensure_session_active (.ok c2_session_server) 0).2.1 = .ok true
    ∧ ((c2_ctx.ensure_session_active (.ok c2_session_server) 0).1).is_session_active 0
        = false := by
  refine ⟨rfl, ?_⟩
  decide

/-- C2 amended: `ensure_session_active` returns true exactly when the
session was not active at entry (a reset was performed); afterwards
`is_session_active` is true provided the reset succeeds with a session
timeout exceeding the 30-second minimum-validity window. -/
theorem ensure_session_active_reset_iff (ctx : ApiContext) (ss : SessionServer)
    (t now : Int)
    (ht : ApiContext.get_session_timeout_seconds ss = .ok t)
    (hmin : ApiContext.sessionExpiryMinimumSeconds < t) :
    (ctx.ensure_session_active (.ok ss) now).2.1 = .ok (!ctx.is_session_active now)
    ∧ ((ctx.ensure_session_active (.ok ss) now).1).is_session_active now = true := by
  cases hact : ctx.is_session_active now with
  | true =>
      have hens : ctx.ensure_session_active (.ok ss) now = (ctx, .ok false, []) := by
        simp [ApiContext.ensure_session_active, hact]
      rw [hens]
      exact ⟨rfl, hact⟩
  | false =>
      obtain ⟨uid, huser⟩ := SessionServer.get_referenced_user_ok ss t ht
      have hreset : ctx.reset_session (.ok ss) now =
          ({ ctx.drop_session_context with
              session_context := some ⟨ss.token.token, now + t, uid⟩ },
           .ok (), [.sessionServerCreate]) := by
        unfold ApiContext.reset_session ApiContext.initialize_session
          ApiContext.get_expiry_timestamp
        simp [ht, huser]
      have hens : ctx.ensure_session_active (.ok ss) now =
          ({ ctx.drop_session_context with
              session_context := some ⟨ss.token.token, now + t, uid⟩ },
           .ok true, [.sessionServerCreate]) := by
        unfold ApiContext.ensure_session_active
        rw [hact, hreset]
        rfl
      rw [hens]
      refine ⟨rfl, ?_⟩
      simp only [ApiContext.is_session_active, decide_eq_true_eq]
      omega

/-- Witness for the amended C2 at a concrete inactive context and a
3600-second timeout. -/
theorem ensure_session_active_reset_iff_witness :
    ApiContext.get_session_timeout_seconds c2w_session_server = .ok 3600
    ∧ ApiContext.sessionExpiryMinimumSeconds < 3600
    ∧ ((c2_ctx.ensure_session_active (.ok c2w_session_server) 0).2.1
          = .ok (!c2_ctx.is_session_active 0)
       ∧ ((c2_ctx.ensure_session_active (.ok c2w_session_server) 0).1).is_session_active 0
          = true) :=
  ⟨rfl, by decide,
   ensure_session_active_reset_iff c2_ctx c2w_session_server 3600 0 rfl (by decide)⟩

/-- C6: `unwrap_response_single` returns the first element of the
`"Response"` array, indexed one level deeper when a wrapper key is given; on
the Id shortcut envelope it yields the inner object, and `_process_for_id`
on the same envelope yields 42. -/
theorem unwrap_response_single_spec (fields : List (String × Json)) (x : Json)
    (rest : List Json) (w : String)
    (h : fields.lookup BunqModel.fieldResponse = some (.arr (x :: rest))) :
    BunqModel.unwrap_response_single (.obj fields) none = .ok x
    ∧ BunqModel.unwrap_response_single (.obj fields) (some w) = x.getKey w
    ∧ BunqModel.unwrap_response_single c6_obj (some "Id") = .ok (.obj [("id", .num 42)])
    ∧ BunqModel.process_for_id c6_obj = .ok (some 42) := by
  refine ⟨?_, ?_, rfl, rfl⟩
  · simp [BunqModel.unwrap_response_single, Json.getKey, Json.getIndex,
      BunqModel.indexFirst, h]
  · simp [BunqModel.unwrap_response_single, Json.getKey, Json.getIndex,
      BunqModel.indexFirst, h]

/-- Witness for C6 at the concrete Id shortcut envelope. -/
theorem unwrap_response_single_spec_witness :
    ([("Response", Json.arr [Json.obj [("Id", Json.obj [("id", Json.num 42)])]])].lookup
        BunqModel.fieldResponse
      = some (Json.arr (Json.obj [("Id", Json.obj [("id", Json.num 42)])] :: [])))
    ∧ (BunqModel.unwrap_response_single
          (.obj [("Response", Json.arr [Json.obj [("Id", Json.obj [("id", Json.num 42)])]])])
          none
        = .ok (Json.obj [("Id", Json.obj [("id", Json.num 42)])])
       ∧ BunqModel.unwrap_response_single
          (.obj [("Response", Json.arr [Json.obj [("Id", Json.obj [("id", Json.num 42)])]])])
          (some "Id")
        = (Json.obj [("Id", Json.obj [("id", Json.num 42)])]).getKey "Id"
       ∧ BunqModel.unwrap_response_single c6_obj (some "Id") = .ok (.obj [("id", .num 42)])
       ∧ BunqModel.process_for_id c6_obj = .ok (some 42)) :=
  ⟨rfl, unwrap_response_single_spec _ _ [] "Id" rfl⟩

/-- The accumulation loop of `_from_json_list` computes exactly the
element-wise monadic map of the spec's element transform. -/
theorem BunqModel.from_json_list_loop_eq_mapM (w : Option String) (xs : List Json) :
    BunqModel.from_json_list_loop w xs = xs.mapM (unwrapItemSpec w) := by
  induction xs with
  | nil => rfl
  | cons x rest ih =>
      rw [List.mapM_cons]
      rw [show BunqModel.from_json_list_loop w (x :: rest) =
        (match unwrapItemSpec w x with
         | .error e => .error e
         | .ok item_unwrapped =>
             match BunqModel.from_json_list_loop w rest with
             | .error e => .error e
             | .ok rest_unwrapped => .ok (item_unwrapped :: rest_unwrapped)) from rfl]
      rw [ih]
      cases unwrapItemSpec w x with
      | error e => rfl
      | ok v =>
          cases rest.mapM (unwrapItemSpec w) with
          | error e => rfl
          | ok vs => rfl

/-- C7: on every envelope whose body maps `"Response"` to an array,
`_from_json_list` is the order-preserving element-wise map of the optional
wrapper-key indexing over that array; on the concrete two-element envelope
it yields the two inner objects in order. -/
theorem from_json_list_maps_response (fields : List (String × Json)) (xs : List Json)
    (w : Option String)
    (h : fields.lookup BunqModel.fieldResponse = some (.arr xs)) :
    BunqModel.from_json_list (.obj fields) w = xs.mapM (unwrapItemSpec w)
    ∧ BunqModel.from_json_list c7_obj (some "X")
        = .ok [.obj [("a", .num 1)], .obj [("a", .num 2)]] := by
  refine ⟨?_, rfl⟩
  unfold BunqModel.from_json_list
  simp [Json.getKey, h, BunqModel.from_json_list_loop_eq_mapM]

/-- Witness for C7 at the concrete two-element envelope. -/
theorem from_json_list_maps_response_witness :
    ([("Response", Json.arr [Json.obj [("X", Json.obj [("a", Json.num 1)])],
                             Json.obj [("X", Json.obj [("a", Json.num 2)])]])].lookup
        BunqModel.fieldResponse
      = some (Json.arr [Json.obj [("X", Json.obj [("a", Json.num 1)])],
                        Json.obj [("X", Json.obj [("a", Json.num 2)])]]))
    ∧ (BunqModel.from_json_list
          (.obj [("Response", Json.arr [Json.obj [("X", Json.obj [("a", Json.num 1)])],
                                        Json.obj [("X", Json.obj [("a", Json.num 2)])]])])
          (some "X")
        = ([Json.obj [("X", Json.obj [("a", Json.num 1)])],
            Json.obj [("X", Json.obj [("a", Json.num 2)])]].mapM (unwrapItemSpec (some "X")))
       ∧ BunqModel.from_json_list c7_obj (some "X")
        = .ok [.obj [("a", .num 1)], .obj [("a", .num 2)]]) :=
  ⟨rfl, from_json_list_maps_response _ _ (some "X") rfl⟩

/-- C8: on every envelope whose body is an object with no `"Response"` key,
both the single unwrapper and the list unwrapper fail, with the missing-key
error the spec's taxonomy calls `ProtocolError`, producing no value. -/
theorem unwrap_missing_response_error (fields : List (String × Json)) (w : Option String)
    (h : fields.lookup BunqModel.fieldResponse = none) :
    BunqModel.unwrap_response_single (.obj fields) w
        = .error (.keyError BunqModel.fieldResponse)
    ∧ BunqModel.from_json_list (.obj fields) w
        = .error (.keyError BunqModel.fieldResponse) := by
  constructor
  · unfold BunqModel.unwrap_response_single
    simp [Json.getKey, h]
  · unfold BunqModel.from_json_list
    simp [Json.getKey, h]

/-- Witness for C8 at a concrete body lacking the `"Response"` key. -/
theorem unwrap_missing_response_error_witness :
    ([("Other", Json.null)].lookup BunqModel.fieldResponse = none)
    ∧ (BunqModel.unwrap_response_single (.obj [("Other", Json.null)]) (some "Id")
        = .error (.keyError BunqModel.fieldResponse)
       ∧ BunqModel.from_json_list (.obj [("Other", Json.null)]) (some "Id")
        = .error (.keyError BunqModel.fieldResponse)) :=
  ⟨rfl, unwrap_missing_response_error [("Other", Json.null)] (some "Id") rfl⟩
